import Mathlib

/-!
Shallow embedding of `sentiwords/embeddings/sswe.py` (SSWE model: input
generator, corrupted-sample generation, shared scorer network and joint loss),
together with theorems checking the specification claims against it.

Conventions of the embedding:
* trigrams and vocabulary ids are `List Nat` / `Nat`;
* scores are rationals (`ℚ`), standing in for the float tensors;
* the RNG of `random.randint` is made explicit as a list of draws
  (each draw produced by `randint(0, len(vocab) - 1)` is a `Nat` below
  `vocabulary_size`); exhausting the list models a run of draws after which
  the retry loop is still spinning, so a `none` result for every draw list
  models non-termination;
* csv reading is a list of rows (each row a list of string fields), and
  Python exceptions are `Except String`.
-/

namespace SSWE

/-! ### Negative sampler: `InputGenerator.corrupted_sample` (sswe.py 84-94)

```python
random_word = randint(0, len(self.vocab) - 1)
while random_word == sample[1]:
    random_word = randint(0, len(self.vocab) - 1)
return [sample[0], random_word, sample[2]]
```

The loop consumes draws until one differs from the middle id `sample[1]`.
-/

def corrupted_sample (sample : List Nat) : List Nat → Option (List Nat)
  | [] => none
  | d :: rest =>
      if d = sample.getD 1 0 then corrupted_sample sample rest
      else some [sample.getD 0 0, d, sample.getD 2 0]

theorem corrupted_sample_nil (sample : List Nat) :
    corrupted_sample sample [] = none := rfl

theorem corrupted_sample_cons (sample : List Nat) (d : Nat) (rest : List Nat) :
    corrupted_sample sample (d :: rest) =
      if d = sample.getD 1 0 then corrupted_sample sample rest
      else some [sample.getD 0 0, d, sample.getD 2 0] := rfl

/-- C1: for a trigram `[a, b, c]` of vocabulary ids with `vocabulary_size ≥ 2`,
whenever the draw stream (each draw in `[0, vocabulary_size)`, as `randint`
guarantees) contains some draw different from the middle id `b`,
`corrupted_sample` returns a trigram `[a, m, c]` that keeps the first and last
ids, whose middle id `m` is in `[0, vocabulary_size)`, and with `m ≠ b`. -/
theorem corrupted_sample_spec (vocabulary_size a b c : Nat) (draws : List Nat)
    (hv : 2 ≤ vocabulary_size)
    (hdraws : ∀ d ∈ draws, d < vocabulary_size)
    (hex : ∃ d ∈ draws, d ≠ b) :
    ∃ m, corrupted_sample [a, b, c] draws = some [a, m, c] ∧
      m < vocabulary_size ∧ m ≠ b := by
  induction draws with
  | nil => simp at hex
  | cons d rest ih =>
      by_cases hd : d = b
      · subst hd
        rw [corrupted_sample_cons]
        simp only [List.getD, List.get?, Option.getD_some, if_pos rfl]
        apply ih
        · intro x hx; exact hdraws x (List.mem_cons_of_mem _ hx)
        · rcases hex with ⟨x, hx, hxb⟩
          rcases List.mem_cons.mp hx with h | h
          · exact absurd h hxb
          · exact ⟨x, h, hxb⟩
      · refine ⟨d, ?_, hdraws d (List.mem_cons_self d rest), hd⟩
        rw [corrupted_sample_cons]
        simp [hd]

theorem corrupted_sample_spec_witness :
    ∃ m, corrupted_sample [5, 0, 7] [0, 1] = some [5, m, 7] ∧ m < 2 ∧ m ≠ 0 :=
  corrupted_sample_spec 2 5 0 7 [0, 1] (by decide)
    (by intro d hd; simp at hd; rcases hd with h | h <;> simp [h])
    ⟨1, by decide, by decide⟩

/-- C5: with `vocabulary_size = 1` every draw of
`randint(0, len(vocab) - 1) = randint(0, 0)` is `0`, so when the original
middle id of the trigram is `0` (the only vocabulary id), the retry loop never
finds a different word: for every draw stream the call does not return.
The code has no fail-fast check; it retries indefinitely. -/
theorem corrupted_sample_vocab_one_diverges (a c : Nat) (draws : List Nat)
    (hdraws : ∀ d ∈ draws, d < 1) :
    corrupted_sample [a, 0, c] draws = none := by
  induction draws with
  | nil => rfl
  | cons d rest ih =>
      have hd : d = 0 := Nat.lt_one_iff.mp (hdraws d (List.mem_cons_self d rest))
      subst hd
      rw [corrupted_sample_cons]
      simp only [List.getD, List.get?, Option.getD_some, if_pos rfl]
      exact ih fun x hx => hdraws x (List.mem_cons_of_mem _ hx)

theorem corrupted_sample_vocab_one_diverges_witness :
    corrupted_sample [0, 0, 0] [0, 0, 0, 0] = none :=
  corrupted_sample_vocab_one_diverges 0 0 [0, 0, 0, 0]
    (by intro d hd; simp at hd; simp [hd])

/-! ### Joint loss of `model_fn` (sswe.py 224-241)

```python
sentiment_loss = tf.reduce_mean(tf.maximum(0,
    1 - labels * original_sentiment_score + labels * corrupted_sentiment_score))
syntactic_loss = tf.reduce_mean(tf.maximum(0,
    1 - original_syntactic_score + corrupted_syntactic_score))
loss = (alpha * syntactic_loss) + ((1 - alpha) * sentiment_loss)
```

A batch is a list of per-sample entries; the elementwise tensor maximum is a
`List.map`, `tf.reduce_mean` is `meanQ`.
-/

/-- One batch element: the four per-sample scores produced by the two scorer
invocations, and the sentiment label cast to a rational. -/
structure BatchSample where
  origSyn : ℚ
  origSent : ℚ
  corrSyn : ℚ
  corrSent : ℚ
  label : ℚ

def meanQ (xs : List ℚ) : ℚ := xs.sum / xs.length

/-- The loss tensor built by `model_fn` in TRAIN/EVAL mode, in the order the
code builds it (sentiment term first, then syntactic, then the combination). -/
def model_fn_loss (alpha : ℚ) (batch : List BatchSample) : ℚ :=
  let sentiment_loss :=
    meanQ (batch.map fun s => max 0 (1 - s.label * s.origSent + s.label * s.corrSent))
  let syntactic_loss :=
    meanQ (batch.map fun s => max 0 (1 - s.origSyn + s.corrSyn))
  (alpha * syntactic_loss) + ((1 - alpha) * sentiment_loss)

/-- Per-sample syntactic hinge loss as written in the spec. -/
def syntacticLossSpec (s : BatchSample) : ℚ := max 0 (1 - s.origSyn + s.corrSyn)

/-- Per-sample sentiment hinge loss as written in the spec. -/
def sentimentLossSpec (s : BatchSample) : ℚ :=
  max 0 (1 - s.label * s.origSent + s.label * s.corrSent)

/-- Batch loss as written in the spec:
`α · mean(syntactic_loss) + (1−α) · mean(sentiment_loss)`. -/
def specBatchLoss (alpha : ℚ) (batch : List BatchSample) : ℚ :=
  alpha * meanQ (batch.map syntacticLossSpec) +
    (1 - alpha) * meanQ (batch.map sentimentLossSpec)

/-- C2: for every batch of per-sample scores with labels in `{-1, +1}`, the
TRAIN/EVAL loss computed by `model_fn` equals
`α · mean(max(0, 1 − orig_syn + corr_syn)) +
 (1−α) · mean(max(0, 1 − label·orig_sent + label·corr_sent))`. -/
theorem model_fn_loss_eq_spec (alpha : ℚ) (batch : List BatchSample)
    (hlab : ∀ s ∈ batch, s.label = 1 ∨ s.label = -1) :
    model_fn_loss alpha batch = specBatchLoss alpha batch := by
  rfl

theorem model_fn_loss_eq_spec_witness :
    (∀ s ∈ [BatchSample.mk 1 2 3 4 1, BatchSample.mk 0 1 0 1 (-1)],
        s.label = 1 ∨ s.label = -1) ∧
    model_fn_loss (1/2) [BatchSample.mk 1 2 3 4 1, BatchSample.mk 0 1 0 1 (-1)] =
      specBatchLoss (1/2) [BatchSample.mk 1 2 3 4 1, BatchSample.mk 0 1 0 1 (-1)] :=
  ⟨by decide, model_fn_loss_eq_spec (1/2) _ (by decide)⟩

/-- The four scores of a batch element (everything except the label). -/
def scoresOf (s : BatchSample) : ℚ × ℚ × ℚ × ℚ :=
  (s.origSyn, s.origSent, s.corrSyn, s.corrSent)

/-- The sentiment-relevant part of a batch element (everything except the
syntactic scores). -/
def sentimentPartOf (s : BatchSample) : ℚ × ℚ × ℚ :=
  (s.origSent, s.corrSent, s.label)

/-- C7: with `α = 1` the loss is unchanged under any replacement of the labels
(in particular flipping every label), and with `α = 0` it is unchanged under
any replacement of the syntactic scores, for fixed remaining data. -/
theorem model_fn_loss_alpha_extremes :
    (∀ b₁ b₂ : List BatchSample, b₁.map scoresOf = b₂.map scoresOf →
      model_fn_loss 1 b₁ = model_fn_loss 1 b₂) ∧
    (∀ b₁ b₂ : List BatchSample, b₁.map sentimentPartOf = b₂.map sentimentPartOf →
      model_fn_loss 0 b₁ = model_fn_loss 0 b₂) := by
  constructor
  · intro b₁ b₂ h
    have h' : b₁.map (fun s => max 0 (1 - s.origSyn + s.corrSyn)) =
        b₂.map (fun s => max 0 (1 - s.origSyn + s.corrSyn)) := by
      have := congrArg (List.map fun p : ℚ × ℚ × ℚ × ℚ => max 0 (1 - p.1 + p.2.2.1)) h
      simpa [List.map_map, Function.comp, scoresOf] using this
    simp [model_fn_loss, h']
  · intro b₁ b₂ h
    have h' : b₁.map (fun s => max 0 (1 - s.label * s.origSent + s.label * s.corrSent)) =
        b₂.map (fun s => max 0 (1 - s.label * s.origSent + s.label * s.corrSent)) := by
      have := congrArg
        (List.map fun p : ℚ × ℚ × ℚ => max 0 (1 - p.2.2 * p.1 + p.2.2 * p.2.1)) h
      simpa [List.map_map, Function.comp, sentimentPartOf] using this
    simp [model_fn_loss, h']

theorem model_fn_loss_alpha_extremes_witness :
    model_fn_loss 1 [BatchSample.mk 1 2 3 4 1] =
      model_fn_loss 1 [BatchSample.mk 1 2 3 4 (-1)] ∧
    model_fn_loss 0 [BatchSample.mk 1 2 3 4 1] =
      model_fn_loss 0 [BatchSample.mk 9 2 7 4 1] :=
  ⟨model_fn_loss_alpha_extremes.1 _ _ (by decide),
   model_fn_loss_alpha_extremes.2 _ _ (by decide)⟩

/-! ### Dual-branch scorer: `shared_network` inside `model_fn` (sswe.py 185-222)

```python
word_embeddings = tf.get_variable("word_embeddings", [vocabulary_size, embedding_size], ...)
embeds = tf.nn.embedding_lookup(word_embeddings, input)
flattened_embeds = tf.layers.flatten(embeds)
hidden = tf.layers.dense(flattened_embeds, hidden_units,
    activation=lambda x: tf.clip_by_value(x, -1, 1), name="hidden", reuse=tf.AUTO_REUSE)
output = tf.layers.dense(hidden, 2, name="output", reuse=tf.AUTO_REUSE)
```

`tf.get_variable` / `reuse=tf.AUTO_REUSE` make both invocations read the same
parameter tensors; the embedding makes that sharing explicit by passing one
`NetParams` value to both calls. A dense layer with `units` outputs computes
`y_j = act(Σ_i x_i · K[i, j] + b[j])` for `j < units`.
-/

structure NetConfig where
  vocabulary_size : Nat
  embedding_size : Nat
  hidden_units : Nat

/-- The parameter tensors created by `tf.get_variable` / `tf.layers.dense`
inside the `shared_network` variable scope, as unconstrained value tables. -/
structure NetParams where
  word_embeddings : Nat → Nat → ℚ
  hiddenKernel : Nat → Nat → ℚ
  hiddenBias : Nat → ℚ
  outputKernel : Nat → Nat → ℚ
  outputBias : Nat → ℚ

/-- `tf.clip_by_value(x, -1, 1)`: clamp into the interval `[lo, hi]`. -/
def clip_by_value (lo hi x : ℚ) : ℚ := min (max x lo) hi

/-- A dense (fully connected) layer with `units` output dimensions. -/
def dense (units : Nat) (kernel : Nat → Nat → ℚ) (bias : Nat → ℚ)
    (activation : ℚ → ℚ) (input : List ℚ) : List ℚ :=
  (List.range units).map fun j =>
    activation (((input.enum.map fun p => p.2 * kernel p.1 j).sum) + bias j)

/-- `tf.nn.embedding_lookup`: one embedding row per input id. -/
def embedding_lookup (cfg : NetConfig) (θ : NetParams) (ids : List Nat) :
    List (List ℚ) :=
  ids.map fun id => (List.range cfg.embedding_size).map fun d =>
    θ.word_embeddings id d

/-- The hidden layer of `shared_network`: affine transform to `hidden_units`
dimensions followed by the hard clip to `[-1, 1]`, applied to the flattened
(concatenated) embeddings of the three ids. -/
def hidden_layer (cfg : NetConfig) (θ : NetParams) (input : List Nat) : List ℚ :=
  dense cfg.hidden_units θ.hiddenKernel θ.hiddenBias (clip_by_value (-1) 1)
    (embedding_lookup cfg θ input).flatten

/-- `shared_network` applied to a single trigram: the final affine layer with
2 outputs (no activation) on top of the clipped hidden layer. -/
def shared_network (cfg : NetConfig) (θ : NetParams) (input : List Nat) : List ℚ :=
  dense 2 θ.outputKernel θ.outputBias id (hidden_layer cfg θ input)

/-- The `features` dict of `model_fn`: batches of original and corrupted
trigrams. -/
structure Features where
  original : List (List Nat)
  corrupted : List (List Nat)

/-- `original_output = shared_network(features["original"])` (batched). -/
def original_output (cfg : NetConfig) (θ : NetParams) (features : Features) :
    List (List ℚ) :=
  features.original.map (shared_network cfg θ)

/-- `corrupted_output = shared_network(features["corrupted"])` (batched);
`reuse=tf.AUTO_REUSE` means the same `θ` is read as for the original branch. -/
def corrupted_output (cfg : NetConfig) (θ : NetParams) (features : Features) :
    List (List ℚ) :=
  features.corrupted.map (shared_network cfg θ)

/-- Column 0 of the original branch output: `original_output[:, 0]`. -/
def original_syntactic_score (cfg : NetConfig) (θ : NetParams)
    (features : Features) : List ℚ :=
  (original_output cfg θ features).map fun r => r.getD 0 0

/-- Column 1 of the original branch output: `original_output[:, 1]`. -/
def original_sentiment_score (cfg : NetConfig) (θ : NetParams)
    (features : Features) : List ℚ :=
  (original_output cfg θ features).map fun r => r.getD 1 0

/-- C8: within one `model_fn` invocation both branches are scored by
`shared_network` with the same parameter values `θ`, so equal input trigram
batches give equal branch outputs. -/
theorem shared_params_equal_outputs (cfg : NetConfig) (θ : NetParams)
    (features : Features) (h : features.original = features.corrupted) :
    original_output cfg θ features = corrupted_output cfg θ features := by
  rw [original_output, corrupted_output, h]

theorem shared_params_equal_outputs_witness :
    original_output ⟨3, 2, 2⟩
        ⟨fun i j => (i : ℚ) + j, fun i j => (i : ℚ) - j, fun i => i,
         fun i j => (i : ℚ) * j, fun i => i⟩
        ⟨[[0, 1, 2]], [[0, 1, 2]]⟩ =
      corrupted_output ⟨3, 2, 2⟩
        ⟨fun i j => (i : ℚ) + j, fun i j => (i : ℚ) - j, fun i => i,
         fun i j => (i : ℚ) * j, fun i => i⟩
        ⟨[[0, 1, 2]], [[0, 1, 2]]⟩ :=
  shared_params_equal_outputs _ _ _ rfl

/-- C9: every hidden activation of the scorer lies in `[-1, 1]` (affine map
followed by a hard clip), the final affine layer produces exactly 2 outputs
per item, and `model_fn` reads the syntactic score from position 0 and the
sentiment score from position 1 of that output. -/
theorem scorer_structure (cfg : NetConfig) (θ : NetParams) (input : List Nat) :
    (∀ v ∈ hidden_layer cfg θ input, -1 ≤ v ∧ v ≤ 1) ∧
    (shared_network cfg θ input).length = 2 ∧
    (∀ features : Features,
      original_syntactic_score cfg θ features =
        features.original.map (fun t => (shared_network cfg θ t).getD 0 0) ∧
      original_sentiment_score cfg θ features =
        features.original.map (fun t => (shared_network cfg θ t).getD 1 0)) := by
  refine ⟨?_, ?_, ?_⟩
  · intro v hv
    rw [hidden_layer, dense] at hv
    simp only [List.mem_map, List.mem_range] at hv
    obtain ⟨j, -, rfl⟩ := hv
    constructor
    · exact le_min (le_max_right _ _) (by norm_num)
    · exact min_le_right _ _
  · simp [shared_network, dense]
  · intro features
    constructor
    · simp [original_syntactic_score, original_output, List.map_map,
        Function.comp]
    · simp [original_sentiment_score, original_output, List.map_map,
        Function.comp]

/-! ### Input generator: `InputGenerator` (sswe.py 27-82)

```python
current_tweet = list(map("_".join, ngrams(self.preprocessor.tokenize_tweet(
    line[self.csv_columns.index("text")]), self.ngram)))[::self.ngram]
current_label = 1 if int(line[self.csv_columns.index("sentiment")]) > 0 else -1
chunks = (current_tweet[i * 3:(i + 1) * 3]
          for i in range(0, int(len(current_tweet) / 3)))
for current_chunk in chunks:
    sample = lookup_ids(self.vocab, current_chunk)
    yield (sample, self.corrupted_sample(sample)), current_label
```

The tokenizer (`Preprocessor.tokenize_tweet`) and the corruption RNG are
abstracted as function parameters; Python exceptions raised while iterating
become `Except.error`.
-/

/-- `nltk.ngrams(tokens, n)`: the sliding windows of `n` consecutive tokens
(for `n ≥ 1` there are `length - n + 1` of them, none once fewer than `n`
tokens remain). -/
def ngramsList (n : Nat) : List String → List (List String)
  | [] => []
  | x :: rest =>
      if n ≤ rest.length + 1 then (x :: rest).take n :: ngramsList n rest
      else []

/-- Python `"_".join`. -/
def joinUnderscore : List String → String
  | [] => ""
  | [x] => x
  | x :: rest => x ++ "_" ++ joinUnderscore rest

/-- Python slice `xs[::n]`: the elements whose index is a multiple of `n`. -/
def everyNth (n : Nat) (xs : List α) : List α :=
  xs.enum.filterMap fun p => if p.1 % n = 0 then some p.2 else none

/-- Modelled from the spec: `lookup_ids` from the external `.embedding`
module is not under src/; the spec says to "map each unit to its vocabulary
id", with the vocabulary abstracted here as a lookup function. -/
def lookup_ids (vocab : String → Nat) (units : List String) : List Nat :=
  units.map vocab

/-- One yielded element: `((original_trigram, corrupted_trigram), label)`. -/
abbrev Sample := (List Nat × List Nat) × Int

/-- The body of `generate_samples` for one csv line.  `corrupt` stands for
`self.corrupted_sample` with its RNG draws fixed, and `parseInt` for the
Python builtin `int()` (returning `none` where `int()` raises `ValueError`). -/
def lineSamples (tokenize : String → List String) (parseInt : String → Option Int)
    (vocab : String → Nat)
    (corrupt : List Nat → List Nat) (ngram : Nat)
    (csv_columns : Option (List String)) (line : List String) :
    Except String (List Sample) :=
  match csv_columns with
  | none => .error "AttributeError: NoneType object has no attribute index"
  | some cols =>
    match cols.findIdx? (fun c => c == "text") with
    | none => .error "ValueError: text is not in list"
    | some textIdx =>
      match line.get? textIdx with
      | none => .error "IndexError: list index out of range"
      | some text =>
        let current_tweet :=
          everyNth ngram ((ngramsList ngram (tokenize text)).map joinUnderscore)
        match cols.findIdx? (fun c => c == "sentiment") with
        | none => .error "ValueError: sentiment is not in list"
        | some sentIdx =>
          match line.get? sentIdx with
          | none => .error "IndexError: list index out of range"
          | some sentStr =>
            match parseInt sentStr with
            | none => .error "ValueError: invalid literal for int()"
            | some s =>
              let current_label : Int := if 0 < s then 1 else -1
              let chunks := (List.range (current_tweet.length / 3)).map fun i =>
                (current_tweet.drop (i * 3)).take 3
              .ok (chunks.map fun chunk =>
                ((lookup_ids vocab chunk, corrupt (lookup_ids vocab chunk)),
                  current_label))

/-- `generate_samples` run over the remaining csv rows, flattening the
per-line yields in order; a raised exception aborts the iteration. -/
def generate_samples_aux (tokenize : String → List String)
    (parseInt : String → Option Int) (vocab : String → Nat)
    (corrupt : List Nat → List Nat) (ngram : Nat)
    (csv_columns : Option (List String)) :
    List (List String) → Except String (List Sample)
  | [] => .ok []
  | line :: rest =>
    match lineSamples tokenize parseInt vocab corrupt ngram csv_columns line with
    | .error e => .error e
    | .ok s =>
      match generate_samples_aux tokenize parseInt vocab corrupt ngram
          csv_columns rest with
      | .error e => .error e
      | .ok more => .ok (s ++ more)

/-- The generator state relevant to the claims: the `csv_columns` attribute
and the rows the csv reader has not consumed yet. -/
structure InputGeneratorState where
  csv_columns : Option (List String)
  remaining : List (List String)

/-- `InputGenerator.__init__` (47-55): when the `csv_columns` argument is
`None`, `next(self.reader)` consumes the first row, but line 53
`self.csv_columns = csv_columns` then unconditionally overwrites the
attribute with the constructor argument. -/
def inputGeneratorInit (rows : List (List String))
    (csv_columns : Option (List String)) : InputGeneratorState :=
  let remaining := match csv_columns with
    | none => rows.drop 1
    | some _ => rows
  { csv_columns := csv_columns, remaining := remaining }

def generate_samples (tokenize : String → List String)
    (parseInt : String → Option Int) (vocab : String → Nat)
    (corrupt : List Nat → List Nat) (ngram : Nat)
    (st : InputGeneratorState) : Except String (List Sample) :=
  generate_samples_aux tokenize parseInt vocab corrupt ngram st.csv_columns
    st.remaining

theorem ngramsList_one (xs : List String) :
    ngramsList 1 xs = xs.map fun x => [x] := by
  induction xs with
  | nil => rfl
  | cons x rest ih => simp [ngramsList, ih]

theorem filterMap_some_snd_enumFrom (k : Nat) (xs : List α) :
    (List.enumFrom k xs).filterMap (fun p => some p.2) = xs := by
  induction xs generalizing k with
  | nil => rfl
  | cons x rest ih => simp [List.enumFrom, List.filterMap_cons, ih]

theorem everyNth_one (xs : List α) : everyNth 1 xs = xs := by
  simp only [everyNth, Nat.mod_one, if_pos]
  exact filterMap_some_snd_enumFrom 0 xs

/-- With ngram degree 1 the unit sequence is the raw token sequence. -/
theorem current_tweet_one (toks : List String) :
    everyNth 1 ((ngramsList 1 toks).map joinUnderscore) = toks := by
  rw [everyNth_one, ngramsList_one, List.map_map]
  have h : (joinUnderscore ∘ fun x => [x]) = fun x : String => x := by
    funext x; rfl
  rw [h]
  simp

/-- C3: for a record whose tokenized text has length `L`, with ngram degree 1,
`generate_samples` emits exactly `L / 3` samples from that record, the `i`-th
original trigram being the ids of the 3 consecutive tokens at positions
`3i, 3i+1, 3i+2` (so consecutive groups do not overlap and a final incomplete
group is dropped), and every sample emitted over a row stream comes from the
per-line samples of a single row. -/
theorem generate_samples_trigrams (tokenize : String → List String)
    (parseInt : String → Option Int)
    (vocab : String → Nat) (corrupt : List Nat → List Nat)
    (cols line : List String) (ti si : Nat) (text sentStr : String) (s : Int)
    (hti : cols.findIdx? (fun c => c == "text") = some ti)
    (htext : line.get? ti = some text)
    (hsi : cols.findIdx? (fun c => c == "sentiment") = some si)
    (hsent : line.get? si = some sentStr)
    (hparse : parseInt sentStr = some s) :
    (∃ samples,
      lineSamples tokenize parseInt vocab corrupt 1 (some cols) line =
        .ok samples ∧
      samples.length = (tokenize text).length / 3 ∧
      ∀ i (hi : i < samples.length),
        (samples.get ⟨i, hi⟩).1.1 =
          lookup_ids vocab (((tokenize text).drop (i * 3)).take 3) ∧
        (((tokenize text).drop (i * 3)).take 3).length = 3) ∧
    (∀ (csvCols : Option (List String)) (lines : List (List String))
        (samples : List Sample),
      generate_samples_aux tokenize parseInt vocab corrupt 1 csvCols lines =
        .ok samples →
      ∀ smp ∈ samples, ∃ l ∈ lines, ∃ ls,
        lineSamples tokenize parseInt vocab corrupt 1 csvCols l = .ok ls ∧
          smp ∈ ls) := by
  constructor
  · simp only [lineSamples, hti, htext, hsi, hsent, hparse, current_tweet_one]
    refine ⟨_, rfl, by simp, ?_⟩
    intro i hi
    simp only [List.length_map, List.length_range] at hi
    constructor
    · simp [List.get_eq_getElem, List.getElem_map, List.getElem_range]
    · simp only [List.length_take, List.length_drop]
      omega
  · intro csvCols lines
    induction lines with
    | nil =>
        intro samples h smp hsmp
        simp only [generate_samples_aux] at h
        injection h with h
        subst h
        simp at hsmp
    | cons l rest ih =>
        intro samples h smp hsmp
        simp only [generate_samples_aux] at h
        cases hls : lineSamples tokenize parseInt vocab corrupt 1 csvCols l with
        | error e => rw [hls] at h; exact absurd h (by simp)
        | ok ls =>
          rw [hls] at h
          cases haux :
              generate_samples_aux tokenize parseInt vocab corrupt 1 csvCols
                rest with
          | error e => rw [haux] at h; exact absurd h (by simp)
          | ok more =>
            rw [haux] at h
            injection h with h
            subst h
            rcases List.mem_append.mp hsmp with hin | hin
            · exact ⟨l, List.mem_cons_self l rest, ls, hls, hin⟩
            · obtain ⟨l', hl', ls', hls', hin'⟩ := ih more haux smp hin
              exact ⟨l', List.mem_cons_of_mem l hl', ls', hls', hin'⟩

theorem generate_samples_trigrams_witness :
    (∃ samples,
      lineSamples (fun _ => ["w", "x", "y", "z"])
          (fun v => if v = "1" then some 1 else none) String.length
          (fun t => t) 1
          (some ["sentiment", "id", "date", "status", "user", "text"])
          ["1", "a", "b", "c", "d", "tweet"] = .ok samples ∧
      samples.length = ((fun (_ : String) => ["w", "x", "y", "z"]) "tweet").length / 3 ∧
      ∀ i (hi : i < samples.length),
        (samples.get ⟨i, hi⟩).1.1 =
          lookup_ids String.length
            ((((fun (_ : String) => ["w", "x", "y", "z"]) "tweet").drop (i * 3)).take 3) ∧
        ((((fun (_ : String) => ["w", "x", "y", "z"]) "tweet").drop (i * 3)).take 3).length = 3) ∧
    (∀ (csvCols : Option (List String)) (lines : List (List String))
        (samples : List Sample),
      generate_samples_aux (fun _ => ["w", "x", "y", "z"])
          (fun v => if v = "1" then some 1 else none) String.length
          (fun t => t) 1 csvCols lines = .ok samples →
      ∀ smp ∈ samples, ∃ l ∈ lines, ∃ ls,
        lineSamples (fun _ => ["w", "x", "y", "z"])
          (fun v => if v = "1" then some 1 else none) String.length
          (fun t => t) 1 csvCols l = .ok ls ∧ smp ∈ ls) :=
  generate_samples_trigrams (fun _ => ["w", "x", "y", "z"])
    (fun v => if v = "1" then some 1 else none) String.length (fun t => t)
    ["sentiment", "id", "date", "status", "user", "text"]
    ["1", "a", "b", "c", "d", "tweet"] 5 0 "tweet" "1" 1
    (by rfl) (by rfl) (by rfl) (by rfl) (by rfl)

/-- C4: every sample emitted for a record carries label `+1` exactly when the
sentiment field of the record parses to an integer strictly greater than `0`, and
`-1` otherwise; in particular a parsed sentiment of `0` yields `-1`. -/
theorem sentiment_label_sign (tokenize : String → List String)
    (parseInt : String → Option Int)
    (vocab : String → Nat) (corrupt : List Nat → List Nat) (ngram : Nat)
    (cols line : List String) (ti si : Nat) (text sentStr : String) (s : Int)
    (hti : cols.findIdx? (fun c => c == "text") = some ti)
    (htext : line.get? ti = some text)
    (hsi : cols.findIdx? (fun c => c == "sentiment") = some si)
    (hsent : line.get? si = some sentStr)
    (hparse : parseInt sentStr = some s) :
    ∃ samples,
      lineSamples tokenize parseInt vocab corrupt ngram (some cols) line =
        .ok samples ∧
      ∀ smp ∈ samples,
        (smp.2 = 1 ↔ 0 < s) ∧ (¬ 0 < s → smp.2 = -1) ∧
        (s = 0 → smp.2 = -1) := by
  simp only [lineSamples, hti, htext, hsi, hsent, hparse]
  refine ⟨_, rfl, ?_⟩
  intro smp hsmp
  simp only [List.mem_map] at hsmp
  obtain ⟨chunk, -, rfl⟩ := hsmp
  by_cases hs : 0 < s
  · exact ⟨⟨fun _ => hs, fun _ => if_pos hs⟩, fun h => absurd hs h,
      fun h => absurd hs (by omega)⟩
  · refine ⟨⟨fun h => ?_, fun h => absurd h hs⟩, fun _ => if_neg hs,
      fun _ => if_neg hs⟩
    rw [if_neg hs] at h
    omega

theorem sentiment_label_sign_witness :
    ∃ samples,
      lineSamples (fun _ => ["a", "b", "c"])
          (fun v => if v = "0" then some 0 else none) String.length
          (fun t => t) 1 (some ["sentiment", "text"]) ["0", "tweet"] =
        .ok samples ∧
      ∀ smp ∈ samples,
        (smp.2 = 1 ↔ 0 < (0 : Int)) ∧ (¬ 0 < (0 : Int) → smp.2 = -1) ∧
        ((0 : Int) = 0 → smp.2 = -1) :=
  sentiment_label_sign (fun _ => ["a", "b", "c"])
    (fun v => if v = "0" then some 0 else none) String.length (fun t => t) 1
    ["sentiment", "text"] ["0", "tweet"] 1 0 "tweet" "0" 0
    (by rfl) (by rfl) (by rfl) (by rfl) (by rfl)

/-- C10: constructing the generator with `csv_columns=None` consumes the first
row as a header, but the attribute is then overwritten with `None`; any
subsequent iteration of `generate_samples` over a remaining data row fails
with an error instead of using header-derived columns. -/
theorem init_none_csv_columns (tokenize : String → List String)
    (parseInt : String → Option Int)
    (vocab : String → Nat) (corrupt : List Nat → List Nat) (ngram : Nat)
    (rows : List (List String)) (hrows : rows.tail ≠ []) :
    (inputGeneratorInit rows none).csv_columns = none ∧
    (inputGeneratorInit rows none).remaining = rows.tail ∧
    ∃ e, generate_samples tokenize parseInt vocab corrupt ngram
        (inputGeneratorInit rows none) = .error e := by
  refine ⟨rfl, by simp [inputGeneratorInit, List.drop_one], ?_⟩
  obtain ⟨l, rest, htail⟩ : ∃ l rest, rows.tail = l :: rest := by
    cases h : rows.tail with
    | nil => exact absurd h hrows
    | cons l rest => exact ⟨l, rest, rfl⟩
  refine ⟨"AttributeError: NoneType object has no attribute index", ?_⟩
  rw [generate_samples]
  simp [inputGeneratorInit, List.drop_one, htail, generate_samples_aux,
    lineSamples]

theorem init_none_csv_columns_witness :
    (inputGeneratorInit [["sentiment", "text"], ["1", "tweet"]] none).csv_columns
        = none ∧
    (inputGeneratorInit [["sentiment", "text"], ["1", "tweet"]] none).remaining
        = [["sentiment", "text"], ["1", "tweet"]].tail ∧
    ∃ e, generate_samples (fun _ => ["a", "b", "c"])
        (fun v => if v = "1" then some 1 else none) String.length (fun t => t) 1
        (inputGeneratorInit [["sentiment", "text"], ["1", "tweet"]] none) =
        .error e :=
  init_none_csv_columns (fun _ => ["a", "b", "c"])
    (fun v => if v = "1" then some 1 else none) String.length (fun t => t) 1
    [["sentiment", "text"], ["1", "tweet"]] (by simp)

/-! ### Startup configuration handling in `main` (sswe.py 321-341)

```python
if args.vocabulary is None and args.initial_embeddings is None:
    ... build vocabulary from input data ...
elif args.initial_embeddings is not None:
    ... load embeddings (and their vocabulary) from file ...
else:
    ... load given vocabulary ...
```
-/

inductive VocabSource where
  | buildFromData
  | loadInitialEmbeddings
  | loadVocabFile
deriving DecidableEq

/-- The branch `main` takes on the `--vocabulary` / `--initial_embeddings`
arguments. -/
def vocab_setup (vocabulary initial_embeddings : Option String) : VocabSource :=
  if vocabulary = none ∧ initial_embeddings = none then .buildFromData
  else if initial_embeddings ≠ none then .loadInitialEmbeddings
  else .loadVocabFile

/-- The startup path of `main` as a fallible computation: the code performs no
validation of the vocabulary/initial-embeddings combination, so every
combination selects a branch and none raises a configuration error. -/
def startup_vocab_config (vocabulary initial_embeddings : Option String) :
    Except String VocabSource :=
  .ok (vocab_setup vocabulary initial_embeddings)

/-- C6 counterexample: when both a vocabulary path and an initial-embeddings
path are supplied, startup is not rejected: it succeeds, taking the
load-initial-embeddings branch and reaching training. -/
theorem both_paths_accepted_cex :
    startup_vocab_config (some "vocab.txt") (some "embeddings.csv") =
      .ok .loadInitialEmbeddings := by
  rfl

/-- C6 amended: if both a vocabulary path and an initial-embeddings path are
supplied, the run is not rejected: startup takes the load-initial-embeddings
branch, and the vocabulary argument has no influence on the chosen branch. -/
theorem both_paths_load_embeddings (v e : String) :
    startup_vocab_config (some v) (some e) = .ok .loadInitialEmbeddings ∧
    ∀ vocabulary : Option String,
      vocab_setup vocabulary (some e) = vocab_setup (some v) (some e) := by
  constructor
  · simp [startup_vocab_config, vocab_setup]
  · intro vocabulary
    simp [vocab_setup]

end SSWE
